import Mathlib

/-!
Shallow embedding of the workout-tracker app (Leaf-API-and-Map-Pining-JS).

The authoritative draft is `src/js/classconversion.js` (Workout / Running /
Cycling classes and the App class with `_validateWorkoutData`,
`_submitNewWorkout`, `_updateSelect`, `_onHandleMapClick`), together with
`src/js/utils.js` (`validNumber`).  JavaScript numbers are modelled by an
idealised type with NaN, the two infinities and exact rationals for the
finite values; `undefined` values are modelled with `Option`.
-/

namespace LeafMap

/-- JavaScript number: NaN, +Infinity, -Infinity, or a finite value
(idealised as an exact rational). -/
inductive JSNum where
  | nan : JSNum
  | posInf : JSNum
  | negInf : JSNum
  | num : ℚ → JSNum
deriving DecidableEq

/-- `Number.isFinite(val)`. -/
def JSNum.isFinite : JSNum → Bool
  | .num _ => true
  | _ => false

/-- `val > 0` on JavaScript numbers (`NaN > 0` is false, `Infinity > 0` is true). -/
def JSNum.gtZero : JSNum → Bool
  | .nan => false
  | .posInf => true
  | .negInf => false
  | .num q => decide (0 < q)

/-- `validNumber(...args)` from `src/js/utils.js`:
`args.every((val) => Number.isFinite(val) && val > 0)`. -/
def validNumber (args : List JSNum) : Bool :=
  args.all (fun v => v.isFinite && v.gtZero)

/-- JavaScript division on the idealised numbers (finite values exact). -/
def JSNum.div : JSNum → JSNum → JSNum
  | .nan, _ => .nan
  | _, .nan => .nan
  | .posInf, .posInf => .nan
  | .posInf, .negInf => .nan
  | .negInf, .posInf => .nan
  | .negInf, .negInf => .nan
  | .posInf, .num q => if 0 ≤ q then .posInf else .negInf
  | .negInf, .num q => if 0 ≤ q then .negInf else .posInf
  | .num _, .posInf => .num 0
  | .num _, .negInf => .num 0
  | .num a, .num b =>
      if b = 0 then (if a = 0 then .nan else if 0 < a then .posInf else .negInf)
      else .num (a / b)

/-- A coordinate pair `[lat, lng]` as produced by the map-click handler:
either component may be `undefined` (`latlng?.lat` / `latlng?.lng`). -/
abbrev Coord := Option ℚ × Option ℚ

/-- `id = +Date.now().toString().slice(-6)`: the last six decimal digits of
the millisecond clock. -/
def workoutId (nowMs : Nat) : Nat := nowMs % 1000000

/-- Base `Workout` class of `src/js/classconversion.js`: coords, distance
(km), duration (minutes) and the time-derived id. -/
structure Workout where
  coords : Coord
  distance : JSNum
  duration : JSNum
  id : Nat
deriving DecidableEq

/-- `Running.calcPace`: `this.pace = this.duration / (this.distance / 60)`. -/
def Workout.calcPace (w : Workout) : JSNum :=
  w.duration.div (w.distance.div (JSNum.num 60))

/-- `Cycling.calcSpeed`: `this.speed = this.distance / this.duration`. -/
def Workout.calcSpeed (w : Workout) : JSNum :=
  w.distance.div w.duration

/-- `Running` class: adds `cadence` and the derived `pace`. -/
structure Running extends Workout where
  cadence : JSNum
  pace : JSNum
deriving DecidableEq

/-- The `new Running(coords, distance, duration, cadence)` constructor path:
stores the inputs, assigns the time-derived id and immediately calls
`calcPace`. -/
def Running.make (coords : Coord) (distance duration cadence : JSNum)
    (nowMs : Nat) : Running :=
  let base : Workout :=
    { coords := coords, distance := distance, duration := duration,
      id := workoutId nowMs }
  { toWorkout := base, cadence := cadence, pace := base.calcPace }

/-- `Cycling` class: adds `elevationGain` and the derived `speed`. -/
structure Cycling extends Workout where
  elevationGain : JSNum
  speed : JSNum
deriving DecidableEq

/-- The `new Cycling(coords, distance, duration, elevationGain)` constructor
path: stores the inputs, assigns the time-derived id and immediately calls
`calcSpeed`. -/
def Cycling.make (coords : Coord) (distance duration elevationGain : JSNum)
    (nowMs : Nat) : Cycling :=
  let base : Workout :=
    { coords := coords, distance := distance, duration := duration,
      id := workoutId nowMs }
  { toWorkout := base, elevationGain := elevationGain, speed := base.calcSpeed }

/-- A typed workout record, discriminated as in the `type` field of the
classes in `src/unnamed/part_000` (`"running"` / `"cycling"`). -/
inductive WorkoutRecord where
  | running : Running → WorkoutRecord
  | cycling : Cycling → WorkoutRecord
deriving DecidableEq

/-- A record is well formed when its derived field agrees with the
constructor computation (every record built through the constructor path
satisfies this). -/
def WorkoutRecord.wf : WorkoutRecord → Prop
  | .running r => r.pace = r.toWorkout.calcPace
  | .cycling c => c.speed = c.toWorkout.calcSpeed

instance (r : WorkoutRecord) : Decidable r.wf :=
  match r with
  | .running r => inferInstanceAs (Decidable (r.pace = r.toWorkout.calcPace))
  | .cycling c => inferInstanceAs (Decidable (c.speed = c.toWorkout.calcSpeed))

/-- One entry of the persisted JSON array:
`{kind, coordinates: [lat, lng], distanceKm, durationMin, id, cadence?,
elevationGainM?}` (spec section 6). -/
structure StoredEntry where
  kind : String
  coords : Coord
  distance : JSNum
  duration : JSNum
  id : Nat
  cadence : Option JSNum
  elevationGain : Option JSNum
deriving DecidableEq

/-- Modelled from the spec: the repository contains no persistence adapter
(no storage read/write appears in any source file), so serialization is
modelled from spec sections 4.3 and 6: each record becomes one JSON object
carrying its `kind` discriminator, coordinates, distance, duration, id and
its kind-specific field; the derived `pace`/`speed` fields are not stored. -/
def WorkoutRecord.toStoredEntry : WorkoutRecord → StoredEntry
  | .running r =>
      { kind := "running", coords := r.coords, distance := r.distance,
        duration := r.duration, id := r.id, cadence := some r.cadence,
        elevationGain := none }
  | .cycling c =>
      { kind := "cycling", coords := c.coords, distance := c.distance,
        duration := c.duration, id := c.id, cadence := none,
        elevationGain := some c.elevationGain }

/-- Modelled from the spec: `save(records)` serializes the full list to the
single durable slot, overwriting prior contents (spec section 4.3). -/
def save (records : List WorkoutRecord) : List StoredEntry :=
  records.map WorkoutRecord.toStoredEntry

/-- Overwrite the time-assigned id with a stored id (deserialization
preserves the original id rather than regenerating it). -/
def Running.withId (r : Running) (i : Nat) : Running :=
  { r with toWorkout := { r.toWorkout with id := i } }

/-- Overwrite the time-assigned id with a stored id. -/
def Cycling.withId (c : Cycling) (i : Nat) : Cycling :=
  { c with toWorkout := { c.toWorkout with id := i } }

/-- Modelled from the spec: deserialize one stored entry back into a
`RunningRecord` or `CyclingRecord` based on its `kind` discriminator via the
normal constructor path (so `pace`/`speed` are recomputed from the restored
inputs), preserving the original `id`; an entry with an unrecognized `kind`
(or missing its kind-specific field) yields `none` and is dropped. -/
def loadEntry (nowMs : Nat) (e : StoredEntry) : Option WorkoutRecord :=
  if e.kind = "running" then
    match e.cadence with
    | some cad =>
        some (.running ((Running.make e.coords e.distance e.duration cad nowMs).withId e.id))
    | none => none
  else if e.kind = "cycling" then
    match e.elevationGain with
    | some elev =>
        some (.cycling ((Cycling.make e.coords e.distance e.duration elev nowMs).withId e.id))
    | none => none
  else none

/-- Modelled from the spec: `load()` reads the slot and reconstructs the
typed records, dropping unrecognized entries (spec section 4.3). -/
def load (nowMs : Nat) (entries : List StoredEntry) : List WorkoutRecord :=
  entries.filterMap (loadEntry nowMs)

/-- The raw form values read by `_validateWorkoutData` in
`src/js/classconversion.js`: the `type` selector string and the four numeric
fields after the unary `+` coercion. -/
structure FormInput where
  inputType : String
  distance : JSNum
  duration : JSNum
  cadence : JSNum
  elevation : JSNum
deriving DecidableEq

/-- The four rejection reasons the validator can raise, one per `alert`
call site in `App._validateWorkoutData`. -/
inductive AlertMsg where
  | distanceDuration : AlertMsg
  | runningElevation : AlertMsg
  | cyclingCadence : AlertMsg
  | noLocation : AlertMsg
deriving DecidableEq

/-- The exact `alert` text of each reason in `src/js/classconversion.js`. -/
def AlertMsg.text : AlertMsg → String
  | .distanceDuration => "Please enter positive numbers for distance and duration."
  | .runningElevation => "Please enter a positive number for elevation."
  | .cyclingCadence => "Please enter a positive number for cadence."
  | .noLocation => "Please click on the map to select a location."

/-- Outcome of `_validateWorkoutData`: `true`, or `false` together with the
`alert` reason shown. -/
inductive ValidationResult where
  | valid : ValidationResult
  | invalid : AlertMsg → ValidationResult
deriving DecidableEq

/-- `App._validateWorkoutData` from `src/js/classconversion.js` (lines
252–285): distance/duration check, then — as written in the source — the
`elevation` input is checked when `type === "running"` and the `cadence`
input when `type === "cycling"`, then the `!this.lastClickedPosition`
check. -/
def validateWorkoutData (form : FormInput) (lastClickedPosition : Option Coord) :
    ValidationResult :=
  if !validNumber [form.distance, form.duration] then
    .invalid .distanceDuration
  else if form.inputType = "running" && !validNumber [form.elevation] then
    .invalid .runningElevation
  else if form.inputType = "cycling" && !validNumber [form.cadence] then
    .invalid .cyclingCadence
  else if lastClickedPosition.isNone then
    .invalid .noLocation
  else
    .valid

/-- Observable outcome of one `_submitNewWorkout` call: the `#locations`
list afterwards (`undefined` pushes modelled as `none`), the alerts raised
and the markers added. -/
structure SubmitOutcome where
  locations : List (Option WorkoutRecord)
  alerts : List AlertMsg
  markers : List Coord
deriving DecidableEq

/-- `App._submitNewWorkout` from `src/js/classconversion.js` (lines
287–341): on failed validation it returns before touching `#locations`
(the validator has already alerted); on success it builds `currentWorkout`
— note the source passes the `elevation` input to `new Running` and the
`cadence` input to `new Cycling` — pushes it (still `undefined` when the
type is neither string) and adds a marker at `lastClickedPosition`. -/
def submitNewWorkout (form : FormInput) (lastClickedPosition : Option Coord)
    (locations : List (Option WorkoutRecord)) (nowMs : Nat) : SubmitOutcome :=
  match validateWorkoutData form lastClickedPosition with
  | .invalid msg => { locations := locations, alerts := [msg], markers := [] }
  | .valid =>
      let pos := lastClickedPosition.getD (none, none)
      let currentWorkout : Option WorkoutRecord :=
        if form.inputType = "running" then
          some (.running (Running.make pos form.distance form.duration form.elevation nowMs))
        else if form.inputType = "cycling" then
          some (.cycling (Cycling.make pos form.distance form.duration form.cadence nowMs))
        else none
      { locations := locations ++ [currentWorkout], alerts := [],
        markers := [pos] }

/-- Hidden-marker state of the two type-specific form rows. -/
structure RowState where
  cadenceRowHidden : Bool
  elevationRowHidden : Bool
deriving DecidableEq

/-- `App._updateSelect` from `src/js/classconversion.js` (lines 209–230):
removes the hidden class from both rows, then adds it to
`selected[value]` where `selected = {cycling: elevationRow, running:
cadenceRow}`. -/
def updateSelect (value : String) (_rows : RowState) : RowState :=
  let cleared : RowState := { cadenceRowHidden := false, elevationRowHidden := false }
  if value = "cycling" then { cleared with elevationRowHidden := true }
  else if value = "running" then { cleared with cadenceRowHidden := true }
  else cleared

/-- Exactly one of the two rows carries the hidden marker. -/
def RowState.exactlyOneHidden (rows : RowState) : Prop :=
  rows.cadenceRowHidden ≠ rows.elevationRowHidden

/-- The `latlng` payload of a Leaflet click event. -/
structure LatLng where
  lat : ℚ
  lng : ℚ
deriving DecidableEq

/-- A map click event; `latlng` may be absent (`latlng?.lat` then yields
`undefined`). -/
structure ClickEvent where
  latlng : Option LatLng
deriving DecidableEq

/-- The `lastClickedPosition` update of `App._onHandleMapClick`
(`src/js/classconversion.js` lines 190–207): unconditionally assigns the
two-element array `[latlng?.lat, latlng?.lng]`. -/
def onHandleMapClick (e : ClickEvent) (_lastClickedPosition : Option Coord) :
    Option Coord :=
  some (e.latlng.map LatLng.lat, e.latlng.map LatLng.lng)

/-- Claim C2: for every Running record constructed with positive finite
distance and duration, the `pace` field set at construction equals
`duration / (distance / 60)`; for every Cycling record so constructed, the
`speed` field set at construction equals `distance / duration`. -/
theorem pace_speed_at_construction (coords : Coord) (d du cad elev : ℚ)
    (nowMs : Nat) (hd : 0 < d) (hdu : 0 < du) :
    (Running.make coords (.num d) (.num du) (.num cad) nowMs).pace
        = JSNum.num (du / (d / 60)) ∧
    (Cycling.make coords (.num d) (.num du) (.num elev) nowMs).speed
        = JSNum.num (d / du) := by
  have hd60 : d / 60 ≠ 0 := by positivity
  have hdu0 : du ≠ 0 := ne_of_gt hdu
  constructor
  · simp [Running.make, Workout.calcPace, JSNum.div, hd60]
  · simp [Cycling.make, Workout.calcSpeed, JSNum.div, hdu0]

/-- Witness for C2 at distance 5, duration 25, cadence 160, elevation 100. -/
theorem pace_speed_at_construction_witness :
    (0 : ℚ) < 5 ∧ (0 : ℚ) < 25 ∧
    ((Running.make (some 51, some 0) (.num 5) (.num 25) (.num 160) 0).pace
        = JSNum.num (25 / (5 / 60)) ∧
     (Cycling.make (some 51, some 0) (.num 5) (.num 25) (.num 100) 0).speed
        = JSNum.num (5 / 25)) :=
  ⟨by norm_num, by norm_num,
   pace_speed_at_construction (some 51, some 0) 5 25 160 100 0
     (by norm_num) (by norm_num)⟩

/-- Claim C3: the code diverges from the claim. At a submission of type
`"running"` with valid distance and duration, cadence 0 (which the claim
says must be rejected with the invalid-cadence reason) and a valid
elevation input, the validator accepts; and with a valid cadence 160 but
NaN elevation it rejects — the source checks the elevation input under
`"running"` and never looks at cadence. -/
theorem running_validation_checks_elevation_not_cadence :
    validateWorkoutData
      { inputType := "running", distance := .num 5, duration := .num 25,
        cadence := .num 0, elevation := .num 100 }
      (some (some 51, some 0)) = .valid ∧
    validateWorkoutData
      { inputType := "running", distance := .num 5, duration := .num 25,
        cadence := .num 160, elevation := .nan }
      (some (some 51, some 0)) = .invalid .runningElevation := by
  constructor <;> rfl

/-- Claim C4: the code diverges from the claim. At a submission of type
`"cycling"` with valid distance and duration and a finite negative
elevation (which the claim says must be accepted), the validator rejects,
and the reason is the cadence alert: the source checks the cadence input
for finiteness and positivity under `"cycling"` and never looks at
elevation. -/
theorem cycling_validation_checks_cadence_not_elevation :
    validateWorkoutData
      { inputType := "cycling", distance := .num 5, duration := .num 25,
        cadence := .num 0, elevation := .num (-100) }
      (some (some 51, some 0)) = .invalid .cyclingCadence ∧
    validateWorkoutData
      { inputType := "cycling", distance := .num 5, duration := .num 25,
        cadence := .num 160, elevation := .nan }
      (some (some 51, some 0)) = .valid := by
  constructor <;> rfl

/-- Claim C5 counterexample: selecting `"cycling"` does NOT hide the
cadence row — it hides the elevation row, the opposite of the claim. -/
theorem updateSelect_cycling_counterexample :
    (updateSelect "cycling"
      { cadenceRowHidden := false, elevationRowHidden := false }).cadenceRowHidden
        = false ∧
    (updateSelect "cycling"
      { cadenceRowHidden := false, elevationRowHidden := false }).elevationRowHidden
        = true := by
  constructor <;> rfl

/-- Claim C5 as amended: selecting `"cycling"` hides the elevation row and
shows the cadence row; selecting `"running"` hides the cadence row and
shows the elevation row; after either transition exactly one of the two
rows carries the hidden marker. -/
theorem updateSelect_hides_selected_types_row (rows : RowState) :
    updateSelect "cycling" rows
        = { cadenceRowHidden := false, elevationRowHidden := true } ∧
    updateSelect "running" rows
        = { cadenceRowHidden := true, elevationRowHidden := false } ∧
    (updateSelect "cycling" rows).exactlyOneHidden ∧
    (updateSelect "running" rows).exactlyOneHidden := by
  refine ⟨rfl, rfl, ?_, ?_⟩ <;> simp [updateSelect, RowState.exactlyOneHidden]

/-- Claim C6: any submission whose distance is 0, -5, NaN or Infinity is
rejected with the invalid distance/duration reason, whatever the other
fields; in general the validator rejects with that reason whenever
distance or duration is not both finite and strictly positive. -/
theorem validator_rejects_invalid_distance_duration
    (form : FormInput) (pos : Option Coord) :
    (form.distance = .num 0 ∨ form.distance = .num (-5) ∨
     form.distance = .nan ∨ form.distance = .posInf →
        validateWorkoutData form pos = .invalid .distanceDuration) ∧
    (validNumber [form.distance, form.duration] = false →
        validateWorkoutData form pos = .invalid .distanceDuration) := by
  have reject : validNumber [form.distance, form.duration] = false →
      validateWorkoutData form pos = .invalid .distanceDuration := by
    intro h
    simp [validateWorkoutData, h]
  refine ⟨?_, reject⟩
  rintro (hd | hd | hd | hd) <;>
    exact reject (by simp [validNumber, hd, JSNum.isFinite, JSNum.gtZero])

/-- Witness for C6 at distance 0, duration 25. -/
theorem validator_rejects_invalid_distance_duration_witness :
    validNumber [JSNum.num 0, JSNum.num 25] = false ∧
    validateWorkoutData
      { inputType := "running", distance := .num 0, duration := .num 25,
        cadence := .num 160, elevation := .num 100 } none
      = .invalid .distanceDuration :=
  ⟨by decide,
   (validator_rejects_invalid_distance_duration
     { inputType := "running", distance := .num 0, duration := .num 25,
       cadence := .num 160, elevation := .num 100 } none).2 (by decide)⟩

/-- Claim C7: the validator applies its rules in the fixed order
distance/duration, type-specific field, map position, short-circuiting on
the first failure; in particular a submission whose numeric fields are all
valid but whose pending position is null is rejected with the no-location
reason. -/
theorem validator_rule_order (form : FormInput) (pos : Option Coord) :
    (validNumber [form.distance, form.duration] = false →
        validateWorkoutData form pos = .invalid .distanceDuration) ∧
    (validNumber [form.distance, form.duration] = true →
     form.inputType = "running" → validNumber [form.elevation] = false →
        validateWorkoutData form pos = .invalid .runningElevation) ∧
    (validNumber [form.distance, form.duration] = true →
     form.inputType = "cycling" → validNumber [form.cadence] = false →
        validateWorkoutData form pos = .invalid .cyclingCadence) ∧
    (validNumber [form.distance, form.duration] = true →
     validNumber [form.cadence] = true → validNumber [form.elevation] = true →
     pos = none → validateWorkoutData form pos = .invalid .noLocation) := by
  refine ⟨?_, ?_, ?_, ?_⟩
  · intro h
    simp [validateWorkoutData, h]
  · intro h1 ht h2
    simp [validateWorkoutData, h1, ht, h2]
  · intro h1 ht h2
    simp [validateWorkoutData, h1, ht, h2]
  · intro h1 h2 h3 hpos
    simp [validateWorkoutData, h1, h2, h3, hpos]

/-- Witness for C7: all four numeric fields valid, no position captured. -/
theorem validator_rule_order_witness :
    validNumber [JSNum.num 5, JSNum.num 25] = true ∧
    validNumber [JSNum.num 160] = true ∧
    validNumber [JSNum.num 100] = true ∧
    validateWorkoutData
      { inputType := "running", distance := .num 5, duration := .num 25,
        cadence := .num 160, elevation := .num 100 } none
      = .invalid .noLocation :=
  ⟨by decide, by decide, by decide,
   (validator_rule_order
     { inputType := "running", distance := .num 5, duration := .num 25,
       cadence := .num 160, elevation := .num 100 } none).2.2.2
     (by decide) (by decide) (by decide) rfl⟩

/-- Claim C8: a submission rejected by any validation rule is aborted with
no state mutated: the locations list is unchanged (no record constructed),
no marker is added, and exactly the blocking alert carrying the specific
reason is raised. -/
theorem failed_submission_mutates_nothing
    (form : FormInput) (pos : Option Coord)
    (locations : List (Option WorkoutRecord)) (nowMs : Nat) (msg : AlertMsg)
    (h : validateWorkoutData form pos = .invalid msg) :
    submitNewWorkout form pos locations nowMs
      = { locations := locations, alerts := [msg], markers := [] } := by
  simp [submitNewWorkout, h]

/-- Witness for C8: a rejected submission (distance 0) leaves a one-element
locations list unchanged and alerts with the distance/duration reason. -/
theorem failed_submission_mutates_nothing_witness :
    validateWorkoutData
      { inputType := "running", distance := .num 0, duration := .num 25,
        cadence := .num 160, elevation := .num 100 } none
      = .invalid .distanceDuration ∧
    submitNewWorkout
      { inputType := "running", distance := .num 0, duration := .num 25,
        cadence := .num 160, elevation := .num 100 } none [none] 0
      = { locations := [none], alerts := [.distanceDuration], markers := [] } :=
  ⟨by decide,
   failed_submission_mutates_nothing
     { inputType := "running", distance := .num 0, duration := .num 25,
       cadence := .num 160, elevation := .num 100 } none [none] 0
     .distanceDuration (by decide)⟩

/-- Claim C9: a submission that passes validation but whose type string is
neither `"running"` nor `"cycling"` constructs no record yet still pushes
`undefined` onto the private locations list, so the list no longer holds
only workout records. -/
theorem unknown_type_pushes_undefined
    (form : FormInput) (pos : Option Coord)
    (locations : List (Option WorkoutRecord)) (nowMs : Nat)
    (hok : validateWorkoutData form pos = .valid)
    (hr : form.inputType ≠ "running") (hc : form.inputType ≠ "cycling") :
    (submitNewWorkout form pos locations nowMs).locations = locations ++ [none] ∧
    none ∈ (submitNewWorkout form pos locations nowMs).locations := by
  have : (submitNewWorkout form pos locations nowMs).locations
      = locations ++ [none] := by
    simp [submitNewWorkout, hok, hr, hc]
  exact ⟨this, by simp [this]⟩

/-- Witness for C9 at type "swimming" with valid numbers and a captured
position. -/
theorem unknown_type_pushes_undefined_witness :
    validateWorkoutData
      { inputType := "swimming", distance := .num 5, duration := .num 25,
        cadence := .num 1, elevation := .num 1 } (some (some 51, some 0))
      = .valid ∧
    ("swimming" : String) ≠ "running" ∧ ("swimming" : String) ≠ "cycling" ∧
    ((submitNewWorkout
        { inputType := "swimming", distance := .num 5, duration := .num 25,
          cadence := .num 1, elevation := .num 1 } (some (some 51, some 0)) [] 0).locations
      = [] ++ [none] ∧
     none ∈ (submitNewWorkout
        { inputType := "swimming", distance := .num 5, duration := .num 25,
          cadence := .num 1, elevation := .num 1 } (some (some 51, some 0)) [] 0).locations) :=
  ⟨by decide, by decide, by decide,
   unknown_type_pushes_undefined
     { inputType := "swimming", distance := .num 5, duration := .num 25,
       cadence := .num 1, elevation := .num 1 } (some (some 51, some 0)) [] 0
     (by decide) (by decide) (by decide)⟩

/-- The click handler always leaves `lastClickedPosition` assigned, so a
fold over any click sequence starting from an assigned position stays
assigned. -/
theorem clicks_keep_position_assigned (es : List ClickEvent) (p : Option Coord)
    (h : p.isSome = true) :
    (es.foldl (fun acc e => onHandleMapClick e acc) p).isSome = true := by
  induction es generalizing p with
  | nil => exact h
  | cons e rest ih => exact ih (onHandleMapClick e p) rfl

/-- With an assigned position the validator never returns the no-location
reason. -/
theorem validator_no_location_needs_none (form : FormInput) (c : Coord) :
    validateWorkoutData form (some c) ≠ .invalid .noLocation := by
  intro hcontra
  unfold validateWorkoutData at hcontra
  split at hcontra
  · exact absurd (ValidationResult.invalid.inj hcontra) (by decide)
  · split at hcontra
    · exact absurd (ValidationResult.invalid.inj hcontra) (by decide)
    · split at hcontra
      · exact absurd (ValidationResult.invalid.inj hcontra) (by decide)
      · split at hcontra
        · simp [Option.isNone] at *
        · exact ValidationResult.noConfusion hcontra

/-- Claim C10: once any click event has been handled the pending position
is non-null for the rest of the session — a click whose `latlng` is absent
still assigns the (truthy) pair of `undefined` components — so after the
first click the validator can never again reject with the no-location
reason. -/
theorem position_nonnull_after_first_click (es : List ClickEvent)
    (p0 : Option Coord) (h : es ≠ []) :
    onHandleMapClick { latlng := none } p0 = some (none, none) ∧
    ∃ c, es.foldl (fun acc e => onHandleMapClick e acc) p0 = some c ∧
      ∀ form : FormInput,
        validateWorkoutData form (some c) ≠ .invalid .noLocation := by
  refine ⟨rfl, ?_⟩
  have hs : (es.foldl (fun acc e => onHandleMapClick e acc) p0).isSome = true := by
    match es, h with
    | e :: rest, _ =>
        exact clicks_keep_position_assigned rest (onHandleMapClick e p0) rfl
  obtain ⟨c, hc⟩ := Option.isSome_iff_exists.mp hs
  exact ⟨c, hc, fun form => validator_no_location_needs_none form c⟩

/-- Witness for C10: a single click with no `latlng` payload. -/
theorem position_nonnull_after_first_click_witness :
    ([ClickEvent.mk none] ≠ ([] : List ClickEvent)) ∧
    (onHandleMapClick { latlng := none } none = some (none, none) ∧
     ∃ c, [ClickEvent.mk none].foldl (fun acc e => onHandleMapClick e acc) none
            = some c ∧
       ∀ form : FormInput,
         validateWorkoutData form (some c) ≠ .invalid .noLocation) :=
  ⟨by simp, position_nonnull_after_first_click [ClickEvent.mk none] none (by simp)⟩

/-- Deserializing the serialization of a single well-formed record yields
the record back: the constructor path recomputes the derived field from
the restored inputs and the stored id is restored. -/
theorem loadEntry_toStoredEntry (nowMs : Nat) (r : WorkoutRecord) (h : r.wf) :
    loadEntry nowMs r.toStoredEntry = some r := by
  cases r with
  | running r =>
      obtain ⟨⟨coords, dist, dur, i⟩, cad, pace⟩ := r
      simp only [WorkoutRecord.wf, Workout.calcPace] at h
      simp [WorkoutRecord.toStoredEntry, loadEntry, Running.make, Running.withId,
        Workout.calcPace, h]
  | cycling c =>
      obtain ⟨⟨coords, dist, dur, i⟩, elev, speed⟩ := c
      simp only [WorkoutRecord.wf, Workout.calcSpeed] at h
      simp [WorkoutRecord.toStoredEntry, loadEntry, Cycling.make, Cycling.withId,
        Workout.calcSpeed, h]

/-- Claim C1: for every list of well-formed workout records,
`load (save X)` yields records equal to `X` in coordinates, distance,
duration, kind-specific field and id, with the derived `pace`/`speed`
recomputed through the normal constructor path from the restored inputs
(the stored entries hold no derived fields) and equal to the originals. -/
theorem load_save_roundtrip (nowMs : Nat) (records : List WorkoutRecord)
    (h : ∀ r ∈ records, r.wf) :
    load nowMs (save records) = records := by
  induction records with
  | nil => rfl
  | cons r rest ih =>
      have hr : r.wf := h r (List.mem_cons_self r rest)
      have hrest : ∀ x ∈ rest, x.wf := fun x hx => h x (List.mem_cons_of_mem _ hx)
      simp only [save, load, List.map_cons, List.filterMap_cons,
        loadEntry_toStoredEntry nowMs r hr]
      simpa [save, load] using ih hrest

/-- Witness for C1: a two-record list (one running, one cycling) built
through the constructor path survives the round trip unchanged. -/
theorem load_save_roundtrip_witness :
    (∀ r ∈ [WorkoutRecord.running (Running.make (some 51, some 0) (.num 5) (.num 25) (.num 160) 111),
            WorkoutRecord.cycling (Cycling.make (some 35, some (-34)) (.num 8) (.num 23) (.num 120) 222)], r.wf) ∧
    load 999 (save
      [WorkoutRecord.running (Running.make (some 51, some 0) (.num 5) (.num 25) (.num 160) 111),
       WorkoutRecord.cycling (Cycling.make (some 35, some (-34)) (.num 8) (.num 23) (.num 120) 222)])
      = [WorkoutRecord.running (Running.make (some 51, some 0) (.num 5) (.num 25) (.num 160) 111),
         WorkoutRecord.cycling (Cycling.make (some 35, some (-34)) (.num 8) (.num 23) (.num 120) 222)] :=
  ⟨by
    intro r hr
    rcases List.mem_cons.mp hr with rfl | hr
    · rfl
    · rcases List.mem_singleton.mp hr with rfl
      rfl,
   load_save_roundtrip 999
     [WorkoutRecord.running (Running.make (some 51, some 0) (.num 5) (.num 25) (.num 160) 111),
      WorkoutRecord.cycling (Cycling.make (some 35, some (-34)) (.num 8) (.num 23) (.num 120) 222)]
     (by
       intro r hr
       rcases List.mem_cons.mp hr with rfl | hr
       · rfl
       · rcases List.mem_singleton.mp hr with rfl
         rfl)⟩

end LeafMap
